import Mathlib

/-!
Verification of the media-attachment pipeline of a Bluesky posting CLI.

The Go source is shallowly embedded: pure functions (MIME detection,
validation, alt-text resolution, path parsing) become Lean functions on
`String`/`Nat`/`List`; byte slices are `List Nat` (only their length is
consulted by the embedded code); network and file-system effects are
abstracted as oracle parameters (`readFile`, `resolveBlob`, per-image
processing); the polling loop's wall clock is a function from iteration
index to elapsed milliseconds, and the loop itself is fuel-indexed with a
distinguished fuel-exhaustion result so that termination is a provable
property rather than an assumption.
-/

namespace BlueskyAction

/-- Model of Go `unicode.IsSpace` (the code points Go treats as white space). -/
def goIsSpace (c : Char) : Bool :=
  let n := c.toNat
  (9 ≤ n && n ≤ 13) || n == 32 || n == 0x85 || n == 0xA0 || n == 0x1680 ||
  (0x2000 ≤ n && n ≤ 0x200A) || n == 0x2028 || n == 0x2029 || n == 0x202F ||
  n == 0x205F || n == 0x3000

/-- Model of Go `strings.TrimSpace`: drop leading and trailing white space. -/
def trimSpace (s : String) : String :=
  String.mk (((s.toList.dropWhile goIsSpace).reverse.dropWhile goIsSpace).reverse)

/-- Helper for `splitComma`: accumulate the current segment (reversed). -/
def splitCommaAux : List Char → List Char → List String
  | [], acc => [String.mk acc.reverse]
  | c :: rest, acc =>
    if c = ',' then String.mk acc.reverse :: splitCommaAux rest []
    else splitCommaAux rest (c :: acc)

/-- Model of Go `strings.Split(s, ",")`: split on every comma; the empty
string yields `[""]`. -/
def splitComma (s : String) : List String :=
  splitCommaAux s.toList []

instance {ε α : Type} [DecidableEq ε] [DecidableEq α] : DecidableEq (Except ε α) :=
  fun a b =>
    match a, b with
    | .error e, .error f => decidable_of_iff (e = f) (by simp)
    | .error _, .ok _ => isFalse (by simp)
    | .ok _, .error _ => isFalse (by simp)
    | .ok x, .ok y => decidable_of_iff (x = y) (by simp)

/-- ASCII lower-casing of a character, as `strings.ToLower` acts on ASCII. -/
def asciiLowerChar (c : Char) : Char :=
  if 'A' ≤ c && c ≤ 'Z' then Char.ofNat (c.toNat + 32) else c

/-- Model of Go `strings.ToLower` restricted to ASCII input (file extensions). -/
def asciiToLower (s : String) : String :=
  String.mk (s.toList.map asciiLowerChar)

/-- Helper for `filepathExt`: scan the reversed character list, stopping at a
path separator (no extension) or at a dot (extension found). -/
def filepathExtAux : List Char → List Char → String
  | [], _ => ""
  | c :: rest, acc =>
    if c = '/' then ""
    else if c = '.' then String.mk ('.' :: acc)
    else filepathExtAux rest (c :: acc)

/-- Model of Go `filepath.Ext`: the suffix beginning at the final dot in the
final element of the path, empty if there is no dot. -/
def filepathExt (path : String) : String :=
  filepathExtAux path.toList.reverse []

/-- Helper for `filepathBase`: characters of the last path element, reversed. -/
def filepathBaseAux : List Char → List Char → List Char
  | [], acc => acc
  | c :: rest, acc =>
    if c = '/' then acc
    else filepathBaseAux rest (c :: acc)

/-- Model of Go `filepath.Base` on the non-empty, non-trailing-slash paths the
pipeline passes to it: the last element of the path. -/
def filepathBase (path : String) : String :=
  String.mk (filepathBaseAux path.toList.reverse [])

/-! ## Data model (embed.go) -/

/-- `BlobRef` from embed.go. -/
structure BlobRef where
  link : String
deriving DecidableEq, Repr

/-- `Blob` from embed.go. -/
structure Blob where
  type : String
  ref : BlobRef
  mimeType : String
  size : Nat
deriving DecidableEq, Repr

/-- `AspectRatio` from embed.go. -/
structure AspectRatio where
  width : Nat
  height : Nat
deriving DecidableEq, Repr

/-- `EmbedImage` from embed.go. -/
structure EmbedImage where
  alt : String
  image : Blob
  aspectRatio : Option AspectRatio
deriving DecidableEq, Repr

/-- `EmbedImages` from embed.go. -/
structure EmbedImages where
  type : String
  images : List EmbedImage
deriving DecidableEq, Repr

/-- `Caption` from embed.go. -/
structure Caption where
  lang : String
  file : Blob
deriving DecidableEq, Repr

/-- `EmbedVideo` from embed.go. -/
structure EmbedVideo where
  type : String
  video : Blob
  aspectRatio : Option AspectRatio
  alt : String
  captions : List Caption
deriving DecidableEq, Repr

/-- `VideoJobStatus` from video.go. `blob = none` models the nil pointer. -/
structure VideoJobStatus where
  jobId : String
  state : String
  progress : Nat
  blob : Option Blob
  error : String
  message : String
deriving DecidableEq, Repr

/-! ## Errors

Go functions return `error`; each distinct `fmt.Errorf` site in the embedded
code becomes a constructor carrying the data interpolated into the message. -/

/-- Validation failures from `validateImageData` / `validateVideoData`. -/
inductive ValidationError where
  /-- "... exceeds maximum size of %d bytes (got %d bytes)" -/
  | sizeExceeded (path : String) (limit got : Nat)
  /-- "unsupported ... format for file %s" -/
  | unsupportedFormat (path : String)
deriving DecidableEq, Repr

/-- Errors produced (or passed through) by the embedded pipeline functions. -/
inductive GoError where
  /-- "failed to read ... file %s" -/
  | readFailed (path : String)
  /-- a `ValidationError` propagated unchanged -/
  | validation (e : ValidationError)
  /-- "maximum %d images allowed per post, got %d" -/
  | tooManyImages (limit got : Nat)
  /-- "failed to upload image %s" -/
  | uploadFailed (path : String)
  /-- "failed to get job status, status code: %d" -/
  | jobStatusHTTP (statusCode : Nat)
  /-- a JSON decode failure of a 200 response body -/
  | jsonDecode
  /-- any other error an oracle (abstracted network call) may produce -/
  | other (msg : String)
deriving DecidableEq, Repr

/-! ## Format Validator (image.go / video.go) -/

/-- Image size ceiling from image.go: `maxImageSize = 1000000`. -/
def maxImageSize : Nat := 1000000

/-- Image count ceiling from image.go: `maxImagesPerPost = 4`. -/
def maxImagesPerPost : Nat := 4

/-- Video size ceiling from video.go: `maxVideoSize = 50 * 1024 * 1024`. -/
def maxVideoSize : Nat := 50 * 1024 * 1024

/-- `detectImageMimeType` from image.go: extension-based, case-insensitive. -/
def detectImageMimeType (filename : String) : String :=
  let ext := asciiToLower (filepathExt filename)
  if ext == ".jpg" || ext == ".jpeg" then "image/jpeg"
  else if ext == ".png" then "image/png"
  else if ext == ".gif" then "image/gif"
  else if ext == ".webp" then "image/webp"
  else ""

/-- `detectVideoMimeType` from video.go: extension-based, case-insensitive. -/
def detectVideoMimeType (filename : String) : String :=
  let ext := asciiToLower (filepathExt filename)
  if ext == ".mp4" then "video/mp4"
  else if ext == ".mov" then "video/quicktime"
  else if ext == ".webm" then "video/webm"
  else ""

/-- `validateImageData` from image.go: size check first, then format check.
Bytes are modelled as `List Nat`; only the length is consulted. -/
def validateImageData (path : String) (imageData : List Nat) :
    Except ValidationError Unit :=
  if imageData.length > maxImageSize then
    .error (.sizeExceeded path maxImageSize imageData.length)
  else if detectImageMimeType path == "" then
    .error (.unsupportedFormat path)
  else
    .ok ()

/-- `validateVideoData` from video.go: size check first, then format check. -/
def validateVideoData (path : String) (videoData : List Nat) :
    Except ValidationError Unit :=
  if videoData.length > maxVideoSize then
    .error (.sizeExceeded path maxVideoSize videoData.length)
  else if detectVideoMimeType path == "" then
    .error (.unsupportedFormat path)
  else
    .ok ()

/-! ## Image Attachment Processor (image.go) -/

/-- `resolveAltText` from image.go. Go's short-circuit
`index < len(altTexts) && TrimSpace(altTexts[index]) != ""` is rendered with
`List.getD` (out-of-range reads "" whose trim is "", so the conjunction
agrees with the guarded access). -/
def resolveAltText (index : Nat) (altTexts : List String) : String :=
  if index < altTexts.length && trimSpace (altTexts.getD index "") != "" then
    trimSpace (altTexts.getD index "")
  else if altTexts.length == 1 && trimSpace (altTexts.getD 0 "") != "" then
    trimSpace (altTexts.getD 0 "")
  else
    "Image " ++ toString (index + 1)

/-- `parseImagePaths` from image.go: empty input gives no paths; otherwise
split on commas, trim each segment, drop the ones that trim to empty. -/
def parseImagePaths (imagePaths : String) : List String :=
  if imagePaths == "" then []
  else ((splitComma imagePaths).map trimSpace).filter (fun p => p != "")

/-- The per-image effects of `processImage` (file read, validation, blob
upload, dimension probe) abstracted as an oracle from the path and the
resolved alt text to the produced `EmbedImage` or the propagated error. -/
def ImageOracle := String → String → Except GoError EmbedImage

/-- The loop body of `processImages`: sequentially process each path with the
alt text resolved for its index, aborting the batch on the first error.
Alongside the Go loop's result it returns the trace of `(path, alt)` pairs
actually handed to the per-image oracle, so that "no file read / network call
happened" is expressible as the trace being empty. -/
def imageLoop (oracle : ImageOracle) (alts : List String) :
    Nat → List String → Except GoError (List EmbedImage) × List (String × String)
  | _, [] => (.ok [], [])
  | i, p :: rest =>
    let alt := resolveAltText i alts
    match oracle p alt with
    | .error e => (.error e, [(p, alt)])
    | .ok img =>
      match imageLoop oracle alts (i + 1) rest with
      | (.error e, calls) => (.error e, (p, alt) :: calls)
      | (.ok imgs, calls) => (.ok (img :: imgs), (p, alt) :: calls)

/-- `processImages` from image.go. Returns the Go pair `(*EmbedImages, error)`
as `Except GoError (Option EmbedImages)` — `.ok none` is Go's `(nil, nil)` —
together with the trace of per-image oracle invocations. Note `alts` is
`strings.Split(altTexts, ",")`, which on the empty string yields `[""]`. -/
def processImages (oracle : ImageOracle) (imagePaths altTexts : String) :
    Except GoError (Option EmbedImages) × List (String × String) :=
  let paths := parseImagePaths imagePaths
  if paths.length == 0 then (.ok none, [])
  else if paths.length > maxImagesPerPost then
    (.error (.tooManyImages maxImagesPerPost paths.length), [])
  else
    let alts := splitComma altTexts
    match imageLoop oracle alts 0 paths with
    | (.error e, calls) => (.error e, calls)
    | (.ok imgs, calls) =>
      (.ok (some { type := "app.bsky.embed.images", images := imgs }), calls)

/-! ## Video job-status call (video.go, `getVideoJobStatus`) -/

/-- The anonymous struct `getVideoJobStatus` unmarshals a non-200 body into:
`{ error, message, jobStatus* }`. -/
structure ErrorRespBody where
  error : String
  message : String
  status : Option VideoJobStatus
deriving DecidableEq, Repr

/-- `getVideoJobStatus` from video.go, as a function of the HTTP response:
`statusCode` is the response code, `errorBody` the result of unmarshalling the
body into the error shape (`none` = unmarshal failed), `statusBody` the result
of unmarshalling it into `{ jobStatus }` (`none` = unmarshal failed). On a
non-200, a decodable body with error `already_exists` and an embedded status
carrying a blob is returned as success; every other non-200 is an error
carrying the status code. On 200 the decoded `jobStatus` is returned. -/
def getVideoJobStatus (statusCode : Nat) (errorBody : Option ErrorRespBody)
    (statusBody : Option VideoJobStatus) : Except GoError VideoJobStatus :=
  if statusCode != 200 then
    match errorBody with
    | some eb =>
      match eb.status with
      | some st =>
        if eb.error == "already_exists" && st.blob.isSome then .ok st
        else .error (.jobStatusHTTP statusCode)
      | none => .error (.jobStatusHTTP statusCode)
    | none => .error (.jobStatusHTTP statusCode)
  else
    match statusBody with
    | some st => .ok st
    | none => .error .jsonDecode

/-! ## Polling loop (video.go, `pollVideoJobUntilComplete`) -/

/-- `videoStatusPollDelay = 2 * time.Second`, in milliseconds. -/
def videoStatusPollDelayMs : Nat := 2000

/-- `videoStatusMaxWait = 5 * time.Minute`, in milliseconds. -/
def videoStatusMaxWaitMs : Nat := 5 * 60 * 1000

/-- Outcome of the polling loop. The four `return` sites of the Go loop map to
the first four constructors; `fuelOut` is the embedding's marker for "the
fuel bound was reached before the loop returned" and corresponds to no Go
exit at all (a longer run of the loop). -/
inductive PollResult where
  /-- `return status.Blob, nil` -/
  | blobOk (b : Blob)
  /-- `return nil, err` when `getVideoJobStatus` failed -/
  | httpError (e : GoError)
  /-- "video processing failed: %s" with the status error field -/
  | processingFailed (errMsg : String)
  /-- "video processing timed out after %v" -/
  | timedOut
  /-- fuel exhausted (the loop was still running) -/
  | fuelOut
deriving DecidableEq, Repr

/-- `pollVideoJobUntilComplete` from video.go. `getStatus k` is the outcome of
the k-th call to `getVideoJobStatus`; `clock k` is `time.Since(startTime)` in
milliseconds as read at the top of iteration k (the Go loop checks the
deadline first, then fetches the status, then checks blob, then checks
failure, then sleeps and repeats). `fuel` bounds the number of iterations
modelled; a run that exhausts it answers `fuelOut`. -/
def pollLoop (getStatus : Nat → Except GoError VideoJobStatus)
    (clock : Nat → Nat) : Nat → Nat → PollResult
  | _, 0 => .fuelOut
  | k, fuel + 1 =>
    if clock k > videoStatusMaxWaitMs then .timedOut
    else
      match getStatus k with
      | .error e => .httpError e
      | .ok s =>
        match s.blob with
        | some b => .blobOk b
        | none =>
          if s.state == "failed" || s.error != "" then .processingFailed s.error
          else pollLoop getStatus clock (k + 1) fuel

/-! ## Video Attachment Processor (video.go, `processVideo` / `processVideos`) -/

/-- File-system read abstracted as an oracle: path to bytes or failure. -/
def ReadFileOracle := String → Except GoError (List Nat)

/-- The network portion of `processVideo` — `getServiceAuthToken`, then
`uploadVideoToService`, then either the upload response's immediate blob or
`pollVideoJobUntilComplete` — abstracted as one oracle from the filename and
the video bytes to the resolved `Blob` or the propagated error. Both success
paths of `processVideo` build the same `EmbedVideo` from the resolved blob. -/
def BlobResolveOracle := String → List Nat → Except GoError Blob

/-- `processVideo` from video.go: read the file, validate it, resolve the
blob through the abstracted auth/upload/poll sequence, and wrap it with the
given alt text into an `EmbedVideo` (`Alt` is set to `altText` verbatim at
both construction sites in the source). -/
def processVideo (readFile : ReadFileOracle) (resolveBlob : BlobResolveOracle)
    (path altText : String) : Except GoError EmbedVideo :=
  match readFile path with
  | .error _ => .error (.readFailed path)
  | .ok videoData =>
    match validateVideoData path videoData with
    | .error e => .error (.validation e)
    | .ok _ =>
      match resolveBlob (filepathBase path) videoData with
      | .error e => .error e
      | .ok blob =>
        .ok { type := "app.bsky.embed.video", video := blob,
              aspectRatio := none, alt := altText, captions := [] }

/-- `processVideos` from video.go: empty path, or a path that trims to empty,
yields `(nil, nil)`; the alt text is defaulted to "Video" only when it is
exactly the empty string (the check precedes the trim), and the value passed
on is `strings.TrimSpace(altText)`. The Go locals `path` and the reassigned
`altText` are inlined. -/
def processVideos (readFile : ReadFileOracle) (resolveBlob : BlobResolveOracle)
    (videoPath altText : String) : Except GoError (Option EmbedVideo) :=
  if videoPath == "" then .ok none
  else if trimSpace videoPath == "" then .ok none
  else
    match processVideo readFile resolveBlob (trimSpace videoPath)
        (trimSpace (if altText == "" then "Video" else altText)) with
    | .error e => .error e
    | .ok ev => .ok (some ev)

/-! ## Attachment Orchestrator (main.go, embed selection) -/

/-- Which embed the post carries when it reaches `publishPost`. -/
inductive EmbedChoice where
  /-- the video branch ran; `none` is Go's typed-nil `*EmbedVideo` -/
  | video (e : Option EmbedVideo)
  /-- the image branch ran and produced an embed -/
  | images (e : EmbedImages)
  /-- the link-card branch ran for the first facet URL -/
  | link (url : String)
  /-- no branch produced an embed -/
  | noEmbed
deriving DecidableEq, Repr

/-- Outcome of main's embed-selection fragment. `exited` is `os.Exit(1)` on a
processor error; `panicked` is the nil-pointer dereference at main.go's
`len(imageEmbed.Images)` log call when `processImages` returned `(nil, nil)`.
-/
inductive MainOutcome where
  | published (embed : EmbedChoice)
  | exited
  | panicked
deriving DecidableEq, Repr

/-- The embed-selection fragment of `main`: the `VideoPath != ""` test is on
the untrimmed string; on video success the post is published with the video
processor's result (possibly Go's nil); on image success main logs
`len(imageEmbed.Images)`, which panics when the returned pointer is nil (the
zero-parsed-paths case); otherwise, with embeds enabled and at least one
facet, the first facet URL's link card is used; else no embed. -/
def selectEmbed (imgOracle : ImageOracle) (readFile : ReadFileOracle)
    (resolveBlob : BlobResolveOracle)
    (videoPath videoAlt imagePaths imageAlts : String)
    (enableEmbeds : Bool) (facetURLs : List String) : MainOutcome :=
  if videoPath != "" then
    match processVideos readFile resolveBlob videoPath videoAlt with
    | .error _ => .exited
    | .ok ve => .published (.video ve)
  else if imagePaths != "" then
    match processImages imgOracle imagePaths imageAlts with
    | (.error _, _) => .exited
    | (.ok none, _) => .panicked
    | (.ok (some ie), _) => .published (.images ie)
  else if enableEmbeds && facetURLs.length > 0 then
    .published (.link (facetURLs.getD 0 ""))
  else
    .published .noEmbed

/-! ## Concrete values used by witnesses and counterexamples -/

/-- A sample resolved blob. -/
def demoBlob : Blob :=
  { type := "blob", ref := { link := "bafkreidemo" }, mimeType := "video/mp4",
    size := 1 }

/-- A read oracle that returns a single-byte file for every path. -/
def okReadFile : ReadFileOracle := fun _ => .ok [0]

/-- A blob-resolution oracle that always succeeds with `demoBlob`. -/
def okResolveBlob : BlobResolveOracle := fun _ _ => .ok demoBlob

/-- The `EmbedVideo` built by a successful video run with alt text `alt`. -/
def demoVideoEmbed (alt : String) : EmbedVideo :=
  { type := "app.bsky.embed.video", video := demoBlob, aspectRatio := none,
    alt := alt, captions := [] }

/-- An image oracle that fails on every path (no upload can succeed). -/
def failImageOracle : ImageOracle := fun p _ => .error (.uploadFailed p)

/-- A still-processing job status: no blob, not failed, no error. -/
def pendingStatus : VideoJobStatus :=
  { jobId := "job1", state := "JOB_STATE_CREATED", progress := 0, blob := none,
    error := "", message := "" }

/-- A completed job status carrying a blob. -/
def blobStatus : VideoJobStatus :=
  { jobId := "job1", state := "JOB_STATE_COMPLETED", progress := 100,
    blob := some demoBlob, error := "", message := "" }

/-- A status sequence that is pending on polls 0 and 1 and carries a blob
from poll 2 on. -/
def lateBlobStatuses : Nat → Except GoError VideoJobStatus :=
  fun k => if k < 2 then .ok pendingStatus else .ok blobStatus

/-- A clock under which iteration k starts 200 seconds after iteration k-1
(slow network), so the 5-minute deadline has elapsed at iteration 2. -/
def slowClock : Nat → Nat := fun k => k * 200000

/-! ## Helper lemmas (shared across claims) -/

theorem processImages_of_nil_paths (oracle : ImageOracle) (ip ia : String)
    (h : parseImagePaths ip = []) : processImages oracle ip ia = (.ok none, []) := by
  simp [processImages, h]

theorem processImages_of_too_many (oracle : ImageOracle) (ip ia : String)
    (h : (parseImagePaths ip).length > maxImagesPerPost) :
    processImages oracle ip ia =
      (.error (.tooManyImages maxImagesPerPost (parseImagePaths ip).length), []) := by
  have h0 : (parseImagePaths ip).length ≠ 0 := by
    intro hz; rw [hz] at h; exact absurd h (by simp [maxImagesPerPost])
  simp [processImages, h0, h]

theorem resolveAltText_ne_empty (i : Nat) (alts : List String) :
    resolveAltText i alts ≠ "" := by
  unfold resolveAltText
  split
  · next h =>
    simp only [Bool.and_eq_true, decide_eq_true_eq, bne_iff_ne] at h
    exact h.2
  · split
    · next h2 =>
      simp only [Bool.and_eq_true, beq_iff_eq, bne_iff_ne] at h2
      exact h2.2
    · intro hEq
      have hlen := congrArg String.length hEq
      rw [String.length_append] at hlen
      have h6 : ("Image " : String).length = 6 := rfl
      have h0 : ("" : String).length = 0 := rfl
      omega

theorem processVideo_alt (rf : ReadFileOracle) (rb : BlobResolveOracle)
    (p a : String) (ev : EmbedVideo) (h : processVideo rf rb p a = .ok ev) :
    ev.alt = a := by
  unfold processVideo at h
  cases hr : rf p with
  | error e => simp [hr] at h
  | ok data =>
    simp only [hr] at h
    cases hv : validateVideoData p data with
    | error e => simp [hv] at h
    | ok u =>
      simp only [hv] at h
      cases hb : rb (filepathBase p) data with
      | error e => simp [hb] at h
      | ok blob =>
        simp only [hb, Except.ok.injEq] at h
        rw [← h]

theorem processVideos_alt (rf : ReadFileOracle) (rb : BlobResolveOracle)
    (vp va : String) (ev : EmbedVideo)
    (h : processVideos rf rb vp va = .ok (some ev)) :
    ev.alt = if va = "" then "Video" else trimSpace va := by
  unfold processVideos at h
  split at h
  · simp at h
  · split at h
    · simp at h
    · cases hpv : processVideo rf rb (trimSpace vp)
          (trimSpace (if va == "" then "Video" else va)) with
      | error e => rw [hpv] at h; simp at h
      | ok ev2 =>
        rw [hpv] at h
        simp only [Except.ok.injEq, Option.some.injEq] at h
        have halt := processVideo_alt rf rb _ _ _ hpv
        rw [← h, halt]
        by_cases hva : va = ""
        · simp only [hva, beq_self_eq_true, if_true, if_pos]
          decide
        · simp [hva]

theorem pollLoop_timeout_of_pending (gs : Nat → Except GoError VideoJobStatus)
    (clock : Nat → Nat)
    (hs : ∀ k, ∃ s, gs k = .ok s ∧ s.blob = none ∧ s.state ≠ "failed" ∧ s.error = "") :
    ∀ fuel k d, d < fuel → videoStatusMaxWaitMs < clock (k + d) →
      pollLoop gs clock k fuel = .timedOut := by
  intro fuel
  induction fuel with
  | zero => intro k d hd hc; omega
  | succ n ih =>
    intro k d hd hc
    by_cases hk : videoStatusMaxWaitMs < clock k
    · simp [pollLoop, hk]
    · obtain ⟨s, hgs, hblob, hstate, herr⟩ := hs k
      have hstep : pollLoop gs clock k (n + 1) = pollLoop gs clock (k + 1) n := by
        simp [pollLoop, hk, hgs, hblob, hstate, herr]
      have hd0 : d ≠ 0 := by
        intro h0
        rw [h0, Nat.add_zero] at hc
        exact hk hc
      obtain ⟨d2, rfl⟩ : ∃ d2, d = d2 + 1 := ⟨d - 1, by omega⟩
      rw [hstep]
      apply ih (k + 1) d2 (by omega)
      have harith : k + 1 + d2 = k + (d2 + 1) := by omega
      rw [harith]
      exact hc

/-! ## Claims -/

/-- Claim C1, counterexample: the claim's priority order fails — with slow
polls, at iteration 2 the 5-minute deadline has already elapsed and the next
status response (index 2) would carry a blob, yet the loop returns the
timeout, not the blob, because the deadline is checked at the top of each
iteration before the status request is made. -/
theorem pollLoop_deadline_over_blob_cex :
    pollLoop lateBlobStatuses slowClock 0 5 = .timedOut ∧
    lateBlobStatuses 2 = .ok blobStatus ∧
    blobStatus.blob = some demoBlob ∧
    slowClock 2 > videoStatusMaxWaitMs :=
  ⟨by decide, by decide, by decide, by decide⟩

/-- Claim C1 (amended): on every iteration the exit conditions are mutually
exclusive, but the deadline is checked first, at the start of the iteration
and before the status request; after a response arrives, blob presence is
checked before the failed-state/error check (a blob wins even on a `failed`
state); the already-exists case is resolved inside the status call and
surfaces here as a blob-carrying success; when none of these fire the loop
continues. Consequently, when the deadline has elapsed at the start of an
iteration the loop times out even if the next status response would carry a
blob. -/
theorem pollLoop_exit_order (gs : Nat → Except GoError VideoJobStatus)
    (clock : Nat → Nat) (k fuel : Nat) :
    (clock k > videoStatusMaxWaitMs →
      pollLoop gs clock k (fuel + 1) = .timedOut) ∧
    (clock k ≤ videoStatusMaxWaitMs → ∀ e, gs k = .error e →
      pollLoop gs clock k (fuel + 1) = .httpError e) ∧
    (clock k ≤ videoStatusMaxWaitMs → ∀ s b, gs k = .ok s → s.blob = some b →
      pollLoop gs clock k (fuel + 1) = .blobOk b) ∧
    (clock k ≤ videoStatusMaxWaitMs → ∀ s, gs k = .ok s → s.blob = none →
      (s.state = "failed" ∨ s.error ≠ "") →
      pollLoop gs clock k (fuel + 1) = .processingFailed s.error) ∧
    (clock k ≤ videoStatusMaxWaitMs → ∀ s, gs k = .ok s → s.blob = none →
      s.state ≠ "failed" → s.error = "" →
      pollLoop gs clock k (fuel + 1) = pollLoop gs clock (k + 1) fuel) := by
  have hnot : clock k ≤ videoStatusMaxWaitMs → ¬ clock k > videoStatusMaxWaitMs :=
    fun h => by omega
  refine ⟨?_, ?_, ?_, ?_, ?_⟩
  · intro h; simp [pollLoop, h]
  · intro h e he; simp [pollLoop, hnot h, he]
  · intro h s b hs hb; simp [pollLoop, hnot h, hs, hb]
  · intro h s hs hb hfail
    rcases hfail with hf | hf
    · simp [pollLoop, hnot h, hs, hb, hf]
    · simp [pollLoop, hnot h, hs, hb, hf]
  · intro h s hs hb h1 h2; simp [pollLoop, hnot h, hs, hb, h1, h2]

/-- Witness for the amended C1 theorem: deadline already elapsed at the start
of the iteration forces a timeout regardless of the status sequence. -/
theorem pollLoop_exit_order_witness :
    pollLoop (fun _ => .ok pendingStatus) (fun _ => 300001) 0 (6 + 1) = .timedOut :=
  (pollLoop_exit_order (fun _ => .ok pendingStatus) (fun _ => 300001) 0 6).1
    (by decide)

/-- Claim C2, counterexample: with the file read, validation and blob
resolution all succeeding, a whitespace-only video alt text " " produces an
embed whose alt text is "" (the emptiness check precedes the trim), not the
default "Video". -/
theorem video_blank_alt_cex :
    processVideos okReadFile okResolveBlob "v.mp4" " " =
      .ok (some (demoVideoEmbed "")) ∧
    (demoVideoEmbed "").alt = "" :=
  ⟨by decide, rfl⟩

/-- Claim C2 (amended): every image attachment's resolved alt text is
non-empty, and a successfully produced video embed carries alt text "Video"
exactly when the supplied value is the empty string, and the trimmed supplied
value otherwise — so a whitespace-only supplied value yields an empty video
alt text. -/
theorem alt_text_nonempty_amended (i : Nat) (alts : List String)
    (rf : ReadFileOracle) (rb : BlobResolveOracle) (vp va : String)
    (ev : EmbedVideo) :
    resolveAltText i alts ≠ "" ∧
    (processVideos rf rb vp va = .ok (some ev) →
      ev.alt = if va = "" then "Video" else trimSpace va) :=
  ⟨resolveAltText_ne_empty i alts, processVideos_alt rf rb vp va ev⟩

/-- Witness for the amended C2 theorem: an empty supplied video alt text
defaults to "Video". -/
theorem alt_text_nonempty_amended_witness :
    resolveAltText 0 [] ≠ "" ∧ (demoVideoEmbed "Video").alt = "Video" :=
  ⟨(alt_text_nonempty_amended 0 [] okReadFile okResolveBlob "v.mp4" ""
      (demoVideoEmbed "Video")).1,
   ((alt_text_nonempty_amended 0 [] okReadFile okResolveBlob "v.mp4" ""
      (demoVideoEmbed "Video")).2 (by decide)).trans (by decide)⟩

/-- Claim C3: a non-empty image-path input that parses to zero paths, with no
video path, makes `processImages` return Go's `(nil, nil)` and then main's
`len(imageEmbed.Images)` log argument dereferences the nil pointer — the
embedding's `panicked` outcome — instead of publishing a post with no embed.
-/
theorem image_branch_nil_embed_panics (imgO : ImageOracle) (rf : ReadFileOracle)
    (rb : BlobResolveOracle) (va ip ia : String) (ee : Bool) (urls : List String)
    (hip : ip ≠ "") (hparse : parseImagePaths ip = []) :
    processImages imgO ip ia = (.ok none, []) ∧
    selectEmbed imgO rf rb "" va ip ia ee urls = .panicked := by
  have hpi := processImages_of_nil_paths imgO ip ia hparse
  refine ⟨hpi, ?_⟩
  simp [selectEmbed, hip, hpi]

/-- Witness for C3 at the concrete input " , , ". -/
theorem image_branch_nil_embed_panics_witness :
    (" , , " : String) ≠ "" ∧ parseImagePaths " , , " = [] ∧
    selectEmbed failImageOracle okReadFile okResolveBlob "" "" " , , " "" true []
      = .panicked :=
  ⟨by decide, by decide,
   (image_branch_nil_embed_panics failImageOracle okReadFile okResolveBlob
      "" " , , " "" true [] (by decide) (by decide)).2⟩

/-- Claim C4: image validation accepts up to exactly 1,000,000 bytes and
video validation up to exactly 50 × 1,048,576 bytes; an oversized file is
rejected with the size error regardless of format (the size check runs
first), while an in-size file with an undetected extension fails with the
unsupported-format error. -/
theorem validate_size_then_format (path : String) (data : List Nat) :
    maxImageSize = 1000000 ∧ maxVideoSize = 50 * 1048576 ∧
    (data.length > maxImageSize →
      validateImageData path data =
        .error (.sizeExceeded path maxImageSize data.length)) ∧
    (data.length ≤ maxImageSize → detectImageMimeType path = "" →
      validateImageData path data = .error (.unsupportedFormat path)) ∧
    (data.length ≤ maxImageSize → detectImageMimeType path ≠ "" →
      validateImageData path data = .ok ()) ∧
    (data.length > maxVideoSize →
      validateVideoData path data =
        .error (.sizeExceeded path maxVideoSize data.length)) ∧
    (data.length ≤ maxVideoSize → detectVideoMimeType path = "" →
      validateVideoData path data = .error (.unsupportedFormat path)) ∧
    (data.length ≤ maxVideoSize → detectVideoMimeType path ≠ "" →
      validateVideoData path data = .ok ()) := by
  refine ⟨rfl, by decide, ?_, ?_, ?_, ?_, ?_, ?_⟩
  · intro h; simp [validateImageData, h]
  · intro h hfmt
    have hno : ¬ data.length > maxImageSize := by omega
    simp [validateImageData, hno, hfmt]
  · intro h hfmt
    have hno : ¬ data.length > maxImageSize := by omega
    simp [validateImageData, hno, hfmt]
  · intro h; simp [validateVideoData, h]
  · intro h hfmt
    have hno : ¬ data.length > maxVideoSize := by omega
    simp [validateVideoData, hno, hfmt]
  · intro h hfmt
    have hno : ¬ data.length > maxVideoSize := by omega
    simp [validateVideoData, hno, hfmt]

/-- Witness for C4: a 1,000,001-byte file of unrecognized extension is
rejected with the size error, not the format error. -/
theorem validate_size_then_format_witness :
    validateImageData "nofmt.bin" (List.replicate 1000001 0) =
      .error (.sizeExceeded "nofmt.bin" maxImageSize 1000001) := by
  have hl : (List.replicate 1000001 (0 : Nat)).length = 1000001 :=
    List.length_replicate 1000001 0
  have h := (validate_size_then_format "nofmt.bin"
      (List.replicate 1000001 0)).2.2.1 (by rw [hl]; decide)
  rw [hl] at h
  exact h

/-- Claim C5: embed selection follows the fixed priority order video > images
> link card > none. With a non-empty video path the outcome is determined by
the video processor alone (it is the same for every image oracle, image
input, and link input); with an empty video path and non-empty image input
the outcome is determined by the image processor alone (no link fetch);
otherwise a link card for the first URL is used when embeds are enabled and a
URL was found, and no embed is produced when not. -/
theorem embed_priority_order (imgO imgO2 : ImageOracle)
    (rf rf2 : ReadFileOracle) (rb rb2 : BlobResolveOracle)
    (vp va va2 ip ia ip2 ia2 : String) (ee ee2 : Bool)
    (urls urls2 : List String) :
    (vp ≠ "" →
      (selectEmbed imgO rf rb vp va ip ia ee urls =
        selectEmbed imgO2 rf rb vp va ip2 ia2 ee2 urls2) ∧
      (∀ ve, processVideos rf rb vp va = .ok ve →
        selectEmbed imgO rf rb vp va ip ia ee urls = .published (.video ve)) ∧
      (∀ e, processVideos rf rb vp va = .error e →
        selectEmbed imgO rf rb vp va ip ia ee urls = .exited)) ∧
    (vp = "" → ip ≠ "" →
      (selectEmbed imgO rf rb vp va ip ia ee urls =
        selectEmbed imgO rf2 rb2 vp va2 ip ia ee2 urls2) ∧
      (∀ ie tr, processImages imgO ip ia = (.ok (some ie), tr) →
        selectEmbed imgO rf rb vp va ip ia ee urls = .published (.images ie)) ∧
      (∀ tr, processImages imgO ip ia = (.ok none, tr) →
        selectEmbed imgO rf rb vp va ip ia ee urls = .panicked) ∧
      (∀ e tr, processImages imgO ip ia = (.error e, tr) →
        selectEmbed imgO rf rb vp va ip ia ee urls = .exited)) ∧
    (vp = "" → ip = "" → ee = true → urls ≠ [] →
      selectEmbed imgO rf rb vp va ip ia ee urls =
        .published (.link (urls.getD 0 ""))) ∧
    (vp = "" → ip = "" → (ee = false ∨ urls = []) →
      selectEmbed imgO rf rb vp va ip ia ee urls = .published .noEmbed) := by
  refine ⟨?_, ?_, ?_, ?_⟩
  · intro hvp
    refine ⟨?_, ?_, ?_⟩
    · simp [selectEmbed, hvp]
    · intro ve hve; simp [selectEmbed, hvp, hve]
    · intro e he; simp [selectEmbed, hvp, he]
  · intro hvp hip
    subst hvp
    refine ⟨?_, ?_, ?_, ?_⟩
    · simp [selectEmbed, hip]
    · intro ie tr hpi; simp [selectEmbed, hip, hpi]
    · intro tr hpi; simp [selectEmbed, hip, hpi]
    · intro e tr hpi; simp [selectEmbed, hip, hpi]
  · intro hvp hip hee hurls
    subst hvp; subst hip
    have hlen : 0 < urls.length := List.length_pos.mpr hurls
    simp [selectEmbed, hee, hlen]
  · intro hvp hip hoff
    subst hvp; subst hip
    rcases hoff with hoff | hoff
    · simp [selectEmbed, hoff]
    · simp [selectEmbed, hoff]

/-- Witness for C5: both a video path and image paths supplied, every image
upload failing — the outcome is still the video embed. -/
theorem embed_priority_order_witness :
    selectEmbed failImageOracle okReadFile okResolveBlob "v.mp4" "Alt"
      "a.png,b.png" "" true ["https://x"] =
      .published (.video (some (demoVideoEmbed "Alt"))) :=
  ((embed_priority_order failImageOracle failImageOracle okReadFile okReadFile
      okResolveBlob okResolveBlob "v.mp4" "Alt" "Alt2" "a.png,b.png" "" "c.png"
      "" true false ["https://x"] []).1 (by decide)).2.1
    (some (demoVideoEmbed "Alt")) (by decide)

/-- Claim C6: more than 4 resolved paths fails with the too-many-attachments
error and an empty per-image invocation trace (no file is read, nothing is
uploaded); zero resolved paths yields no embed and no error (Go `(nil, nil)`,
not an empty embed object). -/
theorem processImages_batch_limits (imgO : ImageOracle) (ip ia : String) :
    ((parseImagePaths ip).length > maxImagesPerPost →
      processImages imgO ip ia =
        (.error (.tooManyImages maxImagesPerPost (parseImagePaths ip).length),
         [])) ∧
    (parseImagePaths ip = [] → processImages imgO ip ia = (.ok none, [])) :=
  ⟨processImages_of_too_many imgO ip ia, processImages_of_nil_paths imgO ip ia⟩

/-- Witness for C6: five supplied paths are rejected with no oracle call. -/
theorem processImages_batch_limits_witness :
    processImages failImageOracle "a,b,c,d,e" "" =
      (.error (.tooManyImages 4 5), []) :=
  ((processImages_batch_limits failImageOracle "a,b,c,d,e" "").1
    (by decide)).trans (by decide)

/-- Claim C7: when no status response ever carries a blob, reports state
`failed`, or has a populated error field, the loop returns the timeout
outcome once some iteration starts more than 5 minutes after the first poll
(every sufficient fuel bound gives this same result, so the loop terminates),
and the timeout outcome is distinct from the processing-failure outcome. -/
theorem pollLoop_times_out (gs : Nat → Except GoError VideoJobStatus)
    (clock : Nat → Nat) (N fuel : Nat)
    (hs : ∀ k, ∃ s, gs k = .ok s ∧ s.blob = none ∧ s.state ≠ "failed" ∧
      s.error = "")
    (hN : videoStatusMaxWaitMs < clock N) (hf : N < fuel) :
    pollLoop gs clock 0 fuel = .timedOut ∧
    ∀ msg, PollResult.timedOut ≠ PollResult.processingFailed msg := by
  constructor
  · apply pollLoop_timeout_of_pending gs clock hs fuel 0 N hf
    simpa using hN
  · intro msg h
    exact PollResult.noConfusion h

/-- Witness for C7: always-pending statuses with 200-second poll gaps time
out at iteration 2, within fuel 3. -/
theorem pollLoop_times_out_witness :
    pollLoop (fun _ => .ok pendingStatus) slowClock 0 3 = .timedOut :=
  (pollLoop_times_out (fun _ => .ok pendingStatus) slowClock 2 3
    (fun _ => ⟨pendingStatus, rfl, rfl, by decide, rfl⟩)
    (by decide) (by decide)).1

/-- Claim C8: a non-200 job-status response whose body decodes to error
`already_exists` with an embedded status carrying a blob is returned as
success with that status; every other non-200 response yields the error
carrying that status code. -/
theorem getVideoJobStatus_already_exists (code : Nat) (msg : String)
    (st : VideoJobStatus) (b : Blob) (eb : Option ErrorRespBody)
    (sb : Option VideoJobStatus) :
    (code ≠ 200 → st.blob = some b →
      getVideoJobStatus code (some ⟨"already_exists", msg, some st⟩) sb =
        .ok st) ∧
    (code ≠ 200 →
      (∀ m s2, eb = some ⟨"already_exists", m, some s2⟩ → s2.blob = none) →
      getVideoJobStatus code eb sb = .error (.jobStatusHTTP code)) := by
  constructor
  · intro hc hb
    simp [getVideoJobStatus, hc, hb]
  · intro hc hother
    cases eb with
    | none => simp [getVideoJobStatus, hc]
    | some e =>
      obtain ⟨err, m, stOpt⟩ := e
      cases stOpt with
      | none => simp [getVideoJobStatus, hc]
      | some s2 =>
        by_cases herr : err = "already_exists"
        · subst herr
          have hblob := hother m s2 rfl
          simp [getVideoJobStatus, hc, hblob]
        · simp [getVideoJobStatus, hc, herr]

/-- Witness for C8: a 409 with an already-exists body carrying a blob-bearing
status is returned as success. -/
theorem getVideoJobStatus_already_exists_witness :
    getVideoJobStatus 409 (some ⟨"already_exists", "conflict", some blobStatus⟩)
      none = .ok blobStatus :=
  (getVideoJobStatus_already_exists 409 "conflict" blobStatus demoBlob none
    none).1 (by decide) (by decide)

/-- Claim C9: alt-text resolution uses the trimmed value at the image's index
when non-blank, else reuses a single non-blank supplied value, else defaults
to "Image <i+1>"; with the concrete examples from the spec. -/
theorem resolveAltText_policy :
    (∀ i alts, i < alts.length → trimSpace (alts.getD i "") ≠ "" →
      resolveAltText i alts = trimSpace (alts.getD i "")) ∧
    (∀ i alts, ¬ (i < alts.length ∧ trimSpace (alts.getD i "") ≠ "") →
      alts.length = 1 → trimSpace (alts.getD 0 "") ≠ "" →
      resolveAltText i alts = trimSpace (alts.getD 0 "")) ∧
    (∀ i alts, ¬ (i < alts.length ∧ trimSpace (alts.getD i "") ≠ "") →
      ¬ (alts.length = 1 ∧ trimSpace (alts.getD 0 "") ≠ "") →
      resolveAltText i alts = "Image " ++ toString (i + 1)) ∧
    resolveAltText 0 ["First", "Second"] = "First" ∧
    resolveAltText 1 ["First", "Second"] = "Second" ∧
    resolveAltText 2 ["Same alt for all"] = "Same alt for all" ∧
    resolveAltText 0 [] = "Image 1" ∧
    resolveAltText 1 ["   "] = "Image 2" ∧
    resolveAltText 3 ["First", "Second"] = "Image 4" := by
  refine ⟨?_, ?_, ?_, by decide, by decide, by decide, by decide, by decide,
    by decide⟩
  · intro i alts h1 h2
    have hc : (decide (i < alts.length) &&
        (trimSpace (alts.getD i "") != "")) = true := by
      simp only [Bool.and_eq_true, decide_eq_true_eq, bne_iff_ne]
      exact ⟨h1, h2⟩
    unfold resolveAltText
    rw [if_pos hc]
  · intro i alts h1 hlen h0
    have hc1 : ¬ ((decide (i < alts.length) &&
        (trimSpace (alts.getD i "") != "")) = true) := by
      simp only [Bool.and_eq_true, decide_eq_true_eq, bne_iff_ne]
      exact h1
    have hc2 : ((alts.length == 1) && (trimSpace (alts.getD 0 "") != ""))
        = true := by
      simp only [Bool.and_eq_true, beq_iff_eq, bne_iff_ne]
      exact ⟨hlen, h0⟩
    unfold resolveAltText
    rw [if_neg hc1, if_pos hc2]
  · intro i alts h1 h2
    have hc1 : ¬ ((decide (i < alts.length) &&
        (trimSpace (alts.getD i "") != "")) = true) := by
      simp only [Bool.and_eq_true, decide_eq_true_eq, bne_iff_ne]
      exact h1
    have hc2 : ¬ (((alts.length == 1) && (trimSpace (alts.getD 0 "") != ""))
        = true) := by
      simp only [Bool.and_eq_true, beq_iff_eq, bne_iff_ne]
      exact h2
    unfold resolveAltText
    rw [if_neg hc1, if_neg hc2]

/-- Witness for C9's conditional clauses at a concrete input. -/
theorem resolveAltText_policy_witness :
    0 < (["First"] : List String).length ∧
    trimSpace ((["First"] : List String).getD 0 "") ≠ "" ∧
    resolveAltText 0 ["First"] = trimSpace ((["First"] : List String).getD 0 "") :=
  ⟨by decide, by decide, resolveAltText_policy.1 0 ["First"] (by decide)
    (by decide)⟩

/-- Claim C10: a whitespace-only video path passes main's untrimmed
non-emptiness check, so the video branch runs; `processVideos` trims it to
empty and returns no embed and no error; the post is published with no media
embed, and the supplied image paths are never processed (the outcome does not
depend on the image oracle or image inputs). -/
theorem whitespace_video_path_no_embed (imgO : ImageOracle)
    (rf : ReadFileOracle) (rb : BlobResolveOracle) (vp va ip ia : String)
    (ee : Bool) (urls : List String)
    (h1 : vp ≠ "") (h2 : trimSpace vp = "") :
    processVideos rf rb vp va = .ok none ∧
    selectEmbed imgO rf rb vp va ip ia ee urls = .published (.video none) := by
  have hpv : processVideos rf rb vp va = .ok none := by
    simp [processVideos, h1, h2]
  exact ⟨hpv, by simp [selectEmbed, h1, hpv]⟩

/-- Witness for C10 at the path "   " with image paths supplied and a failing
image oracle. -/
theorem whitespace_video_path_no_embed_witness :
    selectEmbed failImageOracle okReadFile okResolveBlob "   " "alt"
      "a.png,b.png" "" true ["https://x"] = .published (.video none) :=
  (whitespace_video_path_no_embed failImageOracle okReadFile okResolveBlob
    "   " "alt" "a.png,b.png" "" true ["https://x"] (by decide) (by decide)).2

end BlueskyAction
